import Mathlib

/-!
Shallow embedding of the Nairobi traffic-management backend and browser
modules, with theorems checking the specification's claims against it.

Conventions used throughout:
* JavaScript numbers are modelled as `ℚ` (exact arithmetic); machine
  timestamps (`Date.now()`, `new Date(...)`) as `Int` milliseconds.
* `x || d` on a JS number/string (falsy fallback) is modelled by the
  `jsOr*` helpers; absent (`undefined`/`null`) values by `Option`.
* Fallible external effects (HTTP fetch, database writes) are passed in
  as explicit `Except`/`Bool` oracles, so every function is executable.
-/

/-- JS `x || d` where `x` is a number: `0` is falsy. -/
def jsOrQ (x d : ℚ) : ℚ := if x = 0 then d else x

/-- JS `x || d` where `x` is a string: `""` is falsy. -/
def jsOrStr (x d : String) : String := if x = "" then d else x

/-- JS `x || d` where `x` may be `undefined`/`null` (number). -/
def jsOrOptQ (o : Option ℚ) (d : ℚ) : ℚ :=
  match o with
  | some x => jsOrQ x d
  | none => d

/-- JS `x || d` where `x` may be `undefined`/`null` (string). -/
def jsOrOptStr (o : Option String) (d : String) : String :=
  match o with
  | some x => jsOrStr x d
  | none => d

/-- JS `Math.round`: rounds half toward positive infinity. -/
def jsRound (q : ℚ) : Int := ⌊q + 1/2⌋

namespace TrafficService

/-- One processed flow segment, as produced by
`processTomTomTrafficData` in `services` (part_000). -/
structure Segment where
  coordinates : List (ℚ × ℚ) := []
  currentSpeed : ℚ := 0
  freeFlowSpeed : ℚ := 0
  currentTravelTime : ℚ := 0
  freeFlowTravelTime : ℚ := 0
  confidence : ℚ := 0
  roadCategory : String := ""
  trafficLevel : String := ""
  location : Option String := none
  vehicleCount : Option Nat := none
  weatherCondition : Option String := none
deriving DecidableEq, Repr

/-- The traffic payload returned by the service
(`processTomTomTrafficData` / `getFallbackTrafficData`). -/
structure TrafficData where
  timestamp : Int := 0
  source : String := ""
  message : Option String := none
  segments : List Segment := []
deriving DecidableEq, Repr

/-- `calculateTrafficLevel(currentSpeed, freeFlowSpeed)` from
part_000 lines 324-330. -/
def calculateTrafficLevel (currentSpeed freeFlowSpeed : ℚ) : String :=
  let q := currentSpeed / freeFlowSpeed
  if q > 0.8 then "low"
  else if q > 0.5 then "medium"
  else if q > 0.3 then "high"
  else "severe"

/-- `getFallbackTrafficData()` from part_000 lines 336-343. -/
def getFallbackTrafficData (now : Int) : TrafficData :=
  { timestamp := now
    source := "fallback"
    message := some "Live traffic data unavailable. Using cached data."
    segments := [] }

/-- `getNairobiBounds()` from part_000. -/
def getNairobiBounds : String := "-1.4449,36.6786,-1.1629,37.0990"

end TrafficService

namespace TrafficDataModel

/-- A row of the `traffic_data` table, with the columns the service
writes (part_000 lines 59-77) and the hook reads. -/
structure TrafficRecord where
  id : String := ""
  location : String := ""
  coordinates : ℚ × ℚ := (36.8219, -1.2921)
  vehicle_count : Nat := 0
  current_speed : ℚ := 0
  free_flow_speed : ℚ := 0
  travel_time : ℚ := 0
  free_flow_travel_time : ℚ := 0
  congestion_level : Option String := none
  weather_condition : String := "clear"
  road_type : String := "local"
  confidence : ℚ := 0.8
  data_source : String := ""
  recorded_at : Int := 0
deriving DecidableEq, Repr

/-- The `TrafficData.beforeCreate` hook (trafficData.js lines 228-238):
when `congestion_level` is unset and both speeds are truthy (nonzero),
it assigns the bucket computed from the speed proportion. -/
def trafficData_beforeCreate (t : TrafficRecord) : TrafficRecord :=
  if t.congestion_level = none ∧ t.current_speed ≠ 0 ∧ t.free_flow_speed ≠ 0 then
    let q := t.current_speed / t.free_flow_speed
    { t with
        congestion_level := some (if q > 0.8 then "low"
                                  else if q > 0.5 then "medium"
                                  else if q > 0.3 then "high"
                                  else "severe") }
  else t

end TrafficDataModel

namespace Validation

/-- The coordinate-bearing part of `req.query` as read by
`validateCoordinates` (part_007 lines 183-223).  `bounds` is the result
of `bounds.split(',').map(Number)`: `none` entries are `NaN`. -/
structure CoordQuery where
  lat : Option ℚ := none
  lng : Option ℚ := none
  bounds : Option (List (Option ℚ)) := none
deriving DecidableEq, Repr

/-- Outcome of an Express middleware: an early `res.status(400).json`
response, or `next()` with the request passed on unchanged. -/
inductive MwResult where
  | badRequest (error : String)
  | next
deriving DecidableEq, Repr

/-- `validateCoordinates` from part_007 lines 183-223.  The request is
never mutated; `next` therefore carries no data. -/
def validateCoordinates (q : CoordQuery) : MwResult :=
  match q.lat with
  | some v =>
    if v < -90 ∨ v > 90 then
      .badRequest "Latitude must be between -90 and 90"
    else validateCoordinatesLng q
  | none => validateCoordinatesLng q
where
  validateCoordinatesLng (q : CoordQuery) : MwResult :=
    match q.lng with
    | some v =>
      if v < -180 ∨ v > 180 then
        .badRequest "Longitude must be between -180 and 180"
      else validateCoordinatesBounds q
    | none => validateCoordinatesBounds q
  validateCoordinatesBounds (q : CoordQuery) : MwResult :=
    match q.bounds with
    | none => .next
    | some coords =>
      if coords.length ≠ 4 ∨ coords.any (·.isNone) then
        .badRequest "Bounds must be in format \"minLat,minLon,maxLat,maxLon\""
      else
        -- destructuring `[minLat, minLon, maxLat, maxLon] = coords`
        if (coords.getD 0 none).getD 0 ≥ (coords.getD 2 none).getD 0 ∨
           (coords.getD 1 none).getD 0 ≥ (coords.getD 3 none).getD 0 then
          .badRequest "Invalid bounds: min values must be less than max values"
        else .next

/-- Spec-side reading of the claim: lat in [-90, 90] when present. -/
def latOk (q : CoordQuery) : Prop :=
  ∀ v, q.lat = some v → -90 ≤ v ∧ v ≤ 90

/-- Spec-side reading of the claim: lng in [-180, 180] when present. -/
def lngOk (q : CoordQuery) : Prop :=
  ∀ v, q.lng = some v → -180 ≤ v ∧ v ≤ 180

/-- Spec-side reading of the claim: bounds, when present, is exactly 4
numbers and each min is strictly below the corresponding max. -/
def boundsOk (q : CoordQuery) : Prop :=
  ∀ cs, q.bounds = some cs →
    cs.length = 4 ∧ (∀ x ∈ cs, x ≠ none) ∧
    (cs.getD 0 none).getD 0 < (cs.getD 2 none).getD 0 ∧
    (cs.getD 1 none).getD 0 < (cs.getD 3 none).getD 0

/-- Spec-side characterization of the queries `validateCoordinates`
accepts, written from the claim's words. -/
def coordQuerySpecOk (q : CoordQuery) : Prop :=
  latOk q ∧ lngOk q ∧ boundsOk q

lemma boundsStep_next_iff (q : CoordQuery) :
    validateCoordinates.validateCoordinatesBounds q = MwResult.next ↔ boundsOk q := by
  unfold validateCoordinates.validateCoordinatesBounds boundsOk
  cases hbnd : q.bounds with
  | none => simp
  | some cs =>
    simp only [Option.some.injEq, forall_eq']
    split_ifs with h1 h2
    · constructor
      · intro h; exact h.elim
      · rintro ⟨hlen, hsome, -, -⟩
        rcases h1 with h1 | h1
        · exact h1 hlen
        · obtain ⟨x, hx, hxn⟩ := List.any_eq_true.mp h1
          exact hsome x hx (Option.isNone_iff_eq_none.mp hxn)
    · constructor
      · intro h; exact h.elim
      · rintro ⟨-, -, hlt1, hlt2⟩
        rcases h2 with h2 | h2
        · exact absurd hlt1 (not_lt.mpr h2)
        · exact absurd hlt2 (not_lt.mpr h2)
    · push_neg at h1 h2
      have hsome : ∀ x ∈ cs, x ≠ none := by
        intro x hx heq
        have : cs.any (·.isNone) = true :=
          List.any_eq_true.mpr ⟨x, hx, by rw [heq]; rfl⟩
        exact absurd this h1.2
      simp only [true_iff]
      exact ⟨h1.1, hsome, h2.1, h2.2⟩

lemma lngStep_next_iff (q : CoordQuery) :
    validateCoordinates.validateCoordinatesLng q = MwResult.next ↔
      (lngOk q ∧ boundsOk q) := by
  unfold validateCoordinates.validateCoordinatesLng
  cases hl : q.lng with
  | none =>
    rw [boundsStep_next_iff]
    have : lngOk q := by intro v hv; rw [hl] at hv; exact Option.noConfusion hv
    simp [this]
  | some w =>
    have hlng : lngOk q ↔ (-180 ≤ w ∧ w ≤ 180) := by
      unfold lngOk
      rw [hl]
      simp
    dsimp only
    split_ifs with h
    · constructor
      · intro hc; exact hc.elim
      · rintro ⟨hw, -⟩
        rcases hlng.mp hw with ⟨hw1, hw2⟩
        rcases h with h | h
        · exact absurd hw1 (not_le.mpr h)
        · exact absurd hw2 (not_le.mpr h)
    · rw [boundsStep_next_iff]
      push_neg at h
      constructor
      · intro hb; exact ⟨hlng.mpr ⟨h.1, h.2⟩, hb⟩
      · rintro ⟨-, hb⟩; exact hb

end Validation

/-- C1: `calculateTrafficLevel` buckets by the ratio of current to
free-flow speed — 'low' above 0.8, 'medium' above 0.5, 'high' above
0.3, 'severe' otherwise — and the `TrafficData.beforeCreate` hook
assigns `congestion_level` by the same thresholds from `current_speed`
and `free_flow_speed` when the level is unset and the speeds nonzero. -/
theorem calculateTrafficLevel_buckets (cs ffs : ℚ) (hffs : 0 < ffs) :
    (TrafficService.calculateTrafficLevel cs ffs = "low" ↔ cs / ffs > 0.8) ∧
    (TrafficService.calculateTrafficLevel cs ffs = "medium" ↔
      (cs / ffs > 0.5 ∧ cs / ffs ≤ 0.8)) ∧
    (TrafficService.calculateTrafficLevel cs ffs = "high" ↔
      (cs / ffs > 0.3 ∧ cs / ffs ≤ 0.5)) ∧
    (TrafficService.calculateTrafficLevel cs ffs = "severe" ↔ cs / ffs ≤ 0.3) ∧
    (∀ t : TrafficDataModel.TrafficRecord,
      t.congestion_level = none → t.current_speed = cs → t.free_flow_speed = ffs →
      cs ≠ 0 →
      (TrafficDataModel.trafficData_beforeCreate t).congestion_level =
        some (TrafficService.calculateTrafficLevel cs ffs)) := by
  have hffs' : ffs ≠ 0 := ne_of_gt hffs
  refine ⟨?_, ?_, ?_, ?_, ?_⟩
  · simp only [TrafficService.calculateTrafficLevel]
    split_ifs with h1 h2 h3 <;> simp_all <;> linarith
  · simp only [TrafficService.calculateTrafficLevel]
    split_ifs with h1 h2 h3 <;> simp_all <;> intro h <;> linarith
  · simp only [TrafficService.calculateTrafficLevel]
    split_ifs with h1 h2 h3 <;> simp_all <;> intro h <;> linarith
  · simp only [TrafficService.calculateTrafficLevel]
    split_ifs with h1 h2 h3 <;> simp_all <;> linarith
  · intro t hlevel hcur hfree hcs
    unfold TrafficDataModel.trafficData_beforeCreate
    rw [if_pos ⟨hlevel, by rw [hcur]; exact hcs, by rw [hfree]; exact hffs'⟩]
    simp only [TrafficService.calculateTrafficLevel, hcur, hfree]

/-- Witness for C1 at current speed 50 and free-flow speed 60
(ratio 5/6 > 0.8, so the bucket is 'low'). -/
theorem calculateTrafficLevel_buckets_witness :
    TrafficService.calculateTrafficLevel 50 60 = "low" ∧
    (TrafficDataModel.trafficData_beforeCreate
      { current_speed := 50, free_flow_speed := 60 }).congestion_level = some "low" := by
  have h := calculateTrafficLevel_buckets 50 60 (by norm_num)
  refine ⟨h.1.mpr (by norm_num), ?_⟩
  have h5 := h.2.2.2.2 { current_speed := 50, free_flow_speed := 60 } rfl rfl rfl
    (by norm_num)
  rw [h5, h.1.mpr (by norm_num)]

/-- C7: `validateCoordinates` responds 400 exactly for queries with lat
outside [-90, 90], lng outside [-180, 180], or a malformed or
mis-ordered bounds string; every other query is passed on unchanged via
`next()`. -/
theorem validateCoordinates_spec (q : Validation.CoordQuery) :
    (Validation.validateCoordinates q = Validation.MwResult.next ↔
      Validation.coordQuerySpecOk q) ∧
    ((¬ Validation.coordQuerySpecOk q) ↔
      ∃ e, Validation.validateCoordinates q = Validation.MwResult.badRequest e) := by
  have hmain : Validation.validateCoordinates q = Validation.MwResult.next ↔
      Validation.coordQuerySpecOk q := by
    unfold Validation.validateCoordinates Validation.coordQuerySpecOk
    cases hl : q.lat with
    | none =>
      rw [Validation.lngStep_next_iff]
      have : Validation.latOk q := by
        intro v hv; rw [hl] at hv; exact Option.noConfusion hv
      simp [this, and_assoc]
    | some v =>
      have hlat : Validation.latOk q ↔ (-90 ≤ v ∧ v ≤ 90) := by
        unfold Validation.latOk
        rw [hl]
        simp
      dsimp only
      split_ifs with h
      · constructor
        · intro hc; exact hc.elim
        · rintro ⟨hw, -⟩
          rcases hlat.mp hw with ⟨hw1, hw2⟩
          rcases h with h | h
          · exact absurd hw1 (not_le.mpr h)
          · exact absurd hw2 (not_le.mpr h)
      · rw [Validation.lngStep_next_iff]
        push_neg at h
        constructor
        · intro hb; exact ⟨hlat.mpr ⟨h.1, h.2⟩, hb⟩
        · rintro ⟨-, hb⟩; exact hb
  refine ⟨hmain, ?_⟩
  constructor
  · intro h
    cases hres : Validation.validateCoordinates q with
    | badRequest e => exact ⟨e, rfl⟩
    | next => exact absurd (hmain.mp hres) h
  · rintro ⟨e, he⟩ hok
    have := hmain.mpr hok
    rw [he] at this
    exact Validation.MwResult.noConfusion this

namespace WarningSystem

/-- A warning/alert object as built by `analyzeTrafficFlow`,
`analyzeIncidents` and `analyzeSystemHealth` (part_003). -/
structure Warning where
  level : String := ""
  title : String := ""
  message : String := ""
  location : String := ""
  timestamp : Int := 0
  type : String := ""
  severity : ℚ := 0
deriving DecidableEq, Repr

/-- Decimal rendering with one fractional digit, used only inside
warning message text (JS `Number.prototype.toFixed(1)`). -/
def ratToFixed1 (q : ℚ) : String :=
  let n : Int := ⌊q * 10 + 1/2⌋
  toString (n / 10) ++ "." ++ toString (n % 10).natAbs

/-- `analyzeTrafficFlow(segments)` from part_003 lines 116-175.  The
wall clock (`new Date().toISOString()`) is passed in as `now`. -/
def analyzeTrafficFlow (segments : List TrafficService.Segment) (now : Int) :
    List Warning :=
  let congestionLevels := segments.map (·.trafficLevel)
  let speeds := segments.map (·.currentSpeed)
  let severeCount := (congestionLevels.filter (· == "severe")).length
  let highCount := (congestionLevels.filter (· == "high")).length
  let avgSpeed := speeds.sum / (speeds.length : ℚ)
  let gridlockSegments := (segments.filter (fun s => decide (s.currentSpeed < 5))).length
  (if severeCount > 3 then
    [{ level := "CRITICAL", title := "Severe Traffic Congestion",
       message := toString severeCount ++ " road segments experiencing severe congestion",
       location := "Multiple locations", timestamp := now,
       type := "congestion", severity := (severeCount : ℚ) }]
  else []) ++
  (if highCount > 5 then
    [{ level := "HIGH", title := "High Traffic Volume",
       message := toString highCount ++ " road segments with heavy traffic",
       location := "City-wide", timestamp := now,
       type := "congestion", severity := (highCount : ℚ) }]
  else []) ++
  (if avgSpeed < 15 then
    [{ level := "HIGH", title := "Very Low Average Speed",
       message := "City-wide average speed: " ++ ratToFixed1 avgSpeed ++ " km/h",
       location := "Nairobi metropolitan", timestamp := now,
       type := "speed", severity := avgSpeed }]
  else []) ++
  (if gridlockSegments > 0 then
    [{ level := "CRITICAL", title := "Gridlock Risk Detected",
       message := toString gridlockSegments ++ " segments at near-standstill speeds",
       location := "Critical intersections", timestamp := now,
       type := "gridlock", severity := (gridlockSegments : ℚ) }]
  else [])

/-- `cleanupOldWarnings()` from part_003 lines 454-461: keep alerts
younger than 30 minutes. -/
def cleanupOldWarnings (now : Int) (alerts : List Warning) : List Warning :=
  alerts.filter (fun alert => decide (((now - alert.timestamp : ℚ)) / (1000 * 60) < 30))

/-- `processWarnings(warnings)` from part_003 lines 252-267, acting on
the `this.alerts` array.  The DOM/sound side effects of
`triggerWarning` and `updateWarningDisplay` are not part of the alert
state and are omitted. -/
def processWarnings (now : Int) (warnings : List Warning) (alerts : List Warning) :
    List Warning :=
  let newWarnings := warnings.filter (fun warning =>
    ! alerts.any (fun existing =>
      existing.title == warning.title && existing.location == warning.location))
  cleanupOldWarnings now (alerts ++ newWarnings)

lemma cleanupOldWarnings_eq_self (now : Int) (l : List Warning)
    (h : ∀ a ∈ l, ((now - a.timestamp : ℚ)) / (1000 * 60) < 30) :
    cleanupOldWarnings now l = l := by
  unfold cleanupOldWarnings
  exact List.filter_eq_self.mpr (fun a ha => decide_eq_true (h a ha))

lemma length_pos_iff_exists_speed_lt (segments : List TrafficService.Segment) :
    0 < (segments.filter (fun s => decide (s.currentSpeed < 5))).length ↔
      ∃ s ∈ segments, s.currentSpeed < 5 := by
  rw [List.length_pos_iff_exists_mem]
  constructor
  · rintro ⟨s, hs⟩
    rw [List.mem_filter] at hs
    exact ⟨s, hs.1, of_decide_eq_true hs.2⟩
  · rintro ⟨s, hs, hlt⟩
    exact ⟨s, List.mem_filter.mpr ⟨hs, decide_eq_true hlt⟩⟩

end WarningSystem

/-- C5: on a non-empty segment list, `analyzeTrafficFlow` emits the
CRITICAL 'Severe Traffic Congestion' warning exactly when more than 3
segments are 'severe', the HIGH 'High Traffic Volume' warning exactly
when more than 5 segments are 'high', the HIGH 'Very Low Average
Speed' warning exactly when the mean currentSpeed is below 15, the
CRITICAL 'Gridlock Risk Detected' warning exactly when some segment
has currentSpeed below 5, and nothing else. -/
theorem analyzeTrafficFlow_warnings (segments : List TrafficService.Segment)
    (now : Int) (hne : segments ≠ []) :
    ((∃ w ∈ WarningSystem.analyzeTrafficFlow segments now,
        w.title = "Severe Traffic Congestion" ∧ w.level = "CRITICAL") ↔
      3 < ((segments.map (·.trafficLevel)).filter (· == "severe")).length) ∧
    ((∃ w ∈ WarningSystem.analyzeTrafficFlow segments now,
        w.title = "High Traffic Volume" ∧ w.level = "HIGH") ↔
      5 < ((segments.map (·.trafficLevel)).filter (· == "high")).length) ∧
    ((∃ w ∈ WarningSystem.analyzeTrafficFlow segments now,
        w.title = "Very Low Average Speed" ∧ w.level = "HIGH") ↔
      (segments.map (·.currentSpeed)).sum / (segments.length : ℚ) < 15) ∧
    ((∃ w ∈ WarningSystem.analyzeTrafficFlow segments now,
        w.title = "Gridlock Risk Detected" ∧ w.level = "CRITICAL") ↔
      ∃ s ∈ segments, s.currentSpeed < 5) ∧
    (∀ w ∈ WarningSystem.analyzeTrafficFlow segments now,
      w.title = "Severe Traffic Congestion" ∨ w.title = "High Traffic Volume" ∨
      w.title = "Very Low Average Speed" ∨ w.title = "Gridlock Risk Detected") := by
  simp only [WarningSystem.analyzeTrafficFlow, List.length_map]
  rw [← WarningSystem.length_pos_iff_exists_speed_lt]
  split_ifs <;>
    simp_all [List.mem_append] <;>
    omega

/-- Witness for C5: a single severe segment at speed 3 triggers the
gridlock warning. -/
theorem analyzeTrafficFlow_warnings_witness :
    ([({ currentSpeed := 3, trafficLevel := "severe" } : TrafficService.Segment)] ≠
      ([] : List TrafficService.Segment)) ∧
    (∃ w ∈ WarningSystem.analyzeTrafficFlow
        [{ currentSpeed := 3, trafficLevel := "severe" }] 0,
      w.title = "Gridlock Risk Detected" ∧ w.level = "CRITICAL") := by
  refine ⟨by decide, ?_⟩
  exact (analyzeTrafficFlow_warnings
    [{ currentSpeed := 3, trafficLevel := "severe" }] 0 (by decide)).2.2.2.1.mpr
    (by decide)

/-- C10 counterexample: with a stale alert (same title and location as
the incoming warning) in state, the first run removes the stale alert
via `cleanupOldWarnings`, so a second run with the same warning list
adds the warning after all — the alert set differs. -/
theorem processWarnings_idempotent_counterexample :
    WarningSystem.processWarnings 1900000
        [{ level := "HIGH", title := "T", message := "m", location := "L",
           timestamp := 1900000, type := "t", severity := 1 }]
        (WarningSystem.processWarnings 1900000
          [{ level := "HIGH", title := "T", message := "m", location := "L",
             timestamp := 1900000, type := "t", severity := 1 }]
          [{ level := "HIGH", title := "T", message := "m", location := "L",
             timestamp := 0, type := "t", severity := 1 }]) ≠
      WarningSystem.processWarnings 1900000
        [{ level := "HIGH", title := "T", message := "m", location := "L",
           timestamp := 1900000, type := "t", severity := 1 }]
        [{ level := "HIGH", title := "T", message := "m", location := "L",
           timestamp := 0, type := "t", severity := 1 }] := by
  norm_num [WarningSystem.processWarnings, WarningSystem.cleanupOldWarnings,
    List.filter, List.any]

/-- C10 amended: `processWarnings` adds a warning only when no existing
alert shares its title and location, and running it twice with the same
warning list is idempotent provided every initial alert and every
warning is younger than 30 minutes (so `cleanupOldWarnings` removes no
deduplication blocker). -/
theorem processWarnings_idempotent_of_fresh (now : Int)
    (ws alerts : List WarningSystem.Warning)
    (halerts : ∀ a ∈ alerts, ((now - a.timestamp : ℚ)) / (1000 * 60) < 30)
    (hws : ∀ w ∈ ws, ((now - w.timestamp : ℚ)) / (1000 * 60) < 30) :
    WarningSystem.processWarnings now ws (WarningSystem.processWarnings now ws alerts) =
      WarningSystem.processWarnings now ws alerts := by
  have freshAll : ∀ a ∈ alerts ++ ws.filter (fun warning =>
      ! alerts.any fun existing =>
        existing.title == warning.title && existing.location == warning.location),
      ((now - a.timestamp : ℚ)) / (1000 * 60) < 30 := by
    intro a ha
    rcases List.mem_append.mp ha with h | h
    · exact halerts a h
    · exact hws a (List.mem_of_mem_filter h)
  have hr : WarningSystem.processWarnings now ws alerts =
      alerts ++ ws.filter (fun warning =>
        ! alerts.any fun existing =>
          existing.title == warning.title && existing.location == warning.location) := by
    unfold WarningSystem.processWarnings
    exact WarningSystem.cleanupOldWarnings_eq_self now _ freshAll
  rw [hr]
  unfold WarningSystem.processWarnings
  have hnil : ws.filter (fun warning =>
      ! (alerts ++ ws.filter (fun warning =>
            ! alerts.any fun existing =>
              existing.title == warning.title &&
                existing.location == warning.location)).any
          fun existing =>
            existing.title == warning.title &&
              existing.location == warning.location) = [] := by
    rw [List.filter_eq_nil]
    intro w hw
    have hany : ((alerts ++ ws.filter (fun warning =>
        ! alerts.any fun existing =>
          existing.title == warning.title &&
            existing.location == warning.location)).any
        fun existing =>
          existing.title == w.title && existing.location == w.location) = true := by
      rw [List.any_eq_true]
      by_cases hcase : (alerts.any fun existing =>
          existing.title == w.title && existing.location == w.location) = true
      · obtain ⟨e, he, hme⟩ := List.any_eq_true.mp hcase
        exact ⟨e, List.mem_append_left _ he, hme⟩
      · refine ⟨w, List.mem_append_right _ ?_, ?_⟩
        · refine List.mem_filter.mpr ⟨hw, ?_⟩
          have hfalse : (alerts.any fun existing =>
              existing.title == w.title && existing.location == w.location) = false :=
            eq_false_of_ne_true hcase
          rw [hfalse]
          rfl
        · simp
    simp [hany]
  rw [hnil]
  simp only [List.append_nil]
  exact WarningSystem.cleanupOldWarnings_eq_self now _ freshAll

/-- Witness for the amended C10 theorem: one fresh alert and one fresh
warning with distinct titles. -/
theorem processWarnings_idempotent_of_fresh_witness :
    WarningSystem.processWarnings 1000
        [{ level := "HIGH", title := "A", message := "m", location := "L",
           timestamp := 500, type := "t", severity := 1 }]
        (WarningSystem.processWarnings 1000
          [{ level := "HIGH", title := "A", message := "m", location := "L",
             timestamp := 500, type := "t", severity := 1 }]
          [{ level := "LOW", title := "B", message := "m", location := "L",
             timestamp := 0, type := "t", severity := 1 }]) =
      WarningSystem.processWarnings 1000
        [{ level := "HIGH", title := "A", message := "m", location := "L",
           timestamp := 500, type := "t", severity := 1 }]
        [{ level := "LOW", title := "B", message := "m", location := "L",
           timestamp := 0, type := "t", severity := 1 }] :=
  processWarnings_idempotent_of_fresh 1000
    [{ level := "HIGH", title := "A", message := "m", location := "L",
       timestamp := 500, type := "t", severity := 1 }]
    [{ level := "LOW", title := "B", message := "m", location := "L",
       timestamp := 0, type := "t", severity := 1 }]
    (by intro a ha; rw [List.mem_singleton] at ha; subst ha; norm_num)
    (by intro a ha; rw [List.mem_singleton] at ha; subst ha; norm_num)

namespace TrafficIncidentModel

/-- The `severity` enum of `traffic_incidents`
(`ENUM('low','medium','high','severe')`); Postgres orders enum values
by declaration order, so `severity DESC` puts `severe` first. -/
inductive Severity where
  | low
  | medium
  | high
  | severe
deriving DecidableEq, Repr

/-- Position of a severity in the enum declaration order. -/
def Severity.rank : Severity → Nat
  | .low => 0
  | .medium => 1
  | .high => 2
  | .severe => 3

/-- The `status` enum of `traffic_incidents`
(`ENUM('active','resolved','monitoring')`). -/
inductive Status where
  | active
  | resolved
  | monitoring
deriving DecidableEq, Repr

/-- A row of the `traffic_incidents` table, with the columns
`storeIncidentData` writes and the queries read. -/
structure Incident where
  id : String := ""
  location : String := ""
  coordinates : ℚ × ℚ := (36.8219, -1.2921)
  type : String := "other"
  severity : Severity := .medium
  description : String := ""
  estimated_duration : ℚ := 60
  delay_seconds : ℚ := 0
  status : Status := .active
  verified : Bool := false
  source : String := ""
  external_id : Option String := none
  started_at : Int := 0
deriving DecidableEq, Repr

/-- Options object passed to `findAll`/`findActive`; `none` fields are
absent keys, so object spread (`{...defaultOptions, ...options}`) keeps
the default for them. -/
structure QueryOptions where
  whereClause : Option (Incident → Bool) := none
  order : Option (Incident → Incident → Bool) := none
  limit : Option Nat := none

/-- `ORDER BY severity DESC, started_at DESC` as a Boolean
comparator. -/
def severityStartOrder (a b : Incident) : Bool :=
  decide (b.severity.rank < a.severity.rank) ||
    (decide (a.severity.rank = b.severity.rank) && decide (b.started_at ≤ a.started_at))

/-- `ORDER BY started_at DESC` as a Boolean comparator (used by the
fallback path of `getTrafficIncidents`). -/
def startedAtOrder (a b : Incident) : Bool :=
  decide (b.started_at ≤ a.started_at)

/-- Sequelize `findAll` over an in-memory table: WHERE filter, then
ORDER BY, then LIMIT. -/
def findAll (db : List Incident) (opts : QueryOptions) : List Incident :=
  let filtered := match opts.whereClause with
    | some p => db.filter p
    | none => db
  let sorted := match opts.order with
    | some r => filtered.insertionSort (fun a b => r a b = true)
    | none => filtered
  match opts.limit with
  | some n => sorted.take n
  | none => sorted

/-- `TrafficIncident.findActive(options)` from trafficIncident.js lines
180-187: default `where: { status: 'active' }` and severity/started_at
ordering, merged with the caller's options by object spread. -/
def findActive (db : List Incident) (opts : QueryOptions) : List Incident :=
  findAll db
    { whereClause := match opts.whereClause with
        | some p => some p
        | none => some (fun i => decide (i.status = Status.active))
      order := match opts.order with
        | some r => some r
        | none => some severityStartOrder
      limit := opts.limit }

end TrafficIncidentModel

namespace TrafficService

open TrafficIncidentModel

/-- External effects threaded explicitly: `uuidv4()` per record index,
`Math.floor(Math.random()*100)` per record index, and the clock. -/
structure Env where
  uuid : Nat → String
  rand : Nat → Nat
  now : Int

/-- One incident object of the TomTom incident feed, as consumed by
`storeIncidentData` (part_000 lines 159-176). -/
structure ExtIncident where
  id : Option String := none
  type : Option String := none
  severity : Option String := none
  description : Option String := none
  estimatedDuration : Option ℚ := none
  delayInSeconds : Option ℚ := none
  startTime : Option Int := none
  geometry : Option (ℚ × ℚ) := none
deriving DecidableEq, Repr

/-- `mapIncidentType(type)` from part_000 lines 196-205. -/
def mapIncidentType (t : Option String) : String :=
  match t with
  | some s =>
    if s = "accident" ∨ s = "construction" ∨ s = "weather" ∨
        s = "roadblock" ∨ s = "breakdown" then s
    else "other"
  | none => "other"

/-- `mapIncidentSeverity(severity)` from part_000 lines 207-215,
landing in the `severity` enum of the incident table. -/
def mapIncidentSeverity (s : Option String) : Severity :=
  match s with
  | some "minor" => .low
  | some "moderate" => .medium
  | some "major" => .high
  | some "severe" => .severe
  | _ => .medium

/-- The record built for one external incident by `storeIncidentData`
(part_000 lines 159-176). -/
def mkIncidentRecord (env : Env) (i : Nat) (ext : ExtIncident) : Incident :=
  { id := env.uuid i
    location := jsOrOptStr ext.description "Unknown location"
    coordinates := ext.geometry.getD (36.8219, -1.2921)
    type := mapIncidentType ext.type
    severity := mapIncidentSeverity ext.severity
    description := jsOrOptStr ext.description "Traffic incident"
    estimated_duration := jsOrOptQ ext.estimatedDuration 60
    delay_seconds := jsOrOptQ ext.delayInSeconds 0
    status := .active
    verified := false
    source := "tomtom"
    external_id := ext.id
    started_at := ext.startTime.getD env.now }

/-- `storeIncidentData(incidents)` from part_000 lines 153-194: bulk
insert of mapped records; its own try/catch swallows a database
failure (`dbOk = false`), leaving the table unchanged. -/
def storeIncidentData (env : Env) (incidents : List ExtIncident) (dbOk : Bool)
    (db : List Incident) : List Incident :=
  if dbOk then db ++ incidents.enum.map (fun p => mkIncidentRecord env p.1 p.2)
  else db

/-- The record built for one flow segment by `storeTrafficData`
(part_000 lines 59-77). -/
def mkTrafficRecord (env : Env) (i : Nat) (segment : Segment) :
    TrafficDataModel.TrafficRecord :=
  { id := env.uuid i
    location := jsOrOptStr segment.location "Unknown"
    coordinates := match segment.coordinates.head? with
      | some c => (c.1, c.2)
      | none => (36.8219, -1.2921)
    vehicle_count := match segment.vehicleCount with
      | some v => if v = 0 then env.rand i % 100 else v
      | none => env.rand i % 100
    current_speed := jsOrQ segment.currentSpeed 0
    free_flow_speed := jsOrQ segment.freeFlowSpeed 60
    travel_time := jsOrQ segment.currentTravelTime 0
    free_flow_travel_time := jsOrQ segment.freeFlowTravelTime 0
    congestion_level := some (jsOrStr segment.trafficLevel "medium")
    weather_condition := jsOrOptStr segment.weatherCondition "clear"
    road_type := jsOrStr segment.roadCategory "local"
    confidence := jsOrQ segment.confidence 0.8
    data_source := "tomtom"
    recorded_at := env.now }

/-- `storeTrafficData(trafficData)` from part_000 lines 53-96: bulk
insert of one record per segment; its own try/catch swallows a database
failure (`dbOk = false`), leaving the table unchanged and rethrowing
nothing. -/
def storeTrafficData (env : Env) (trafficData : TrafficData) (dbOk : Bool)
    (db : List TrafficDataModel.TrafficRecord) : List TrafficDataModel.TrafficRecord :=
  if dbOk then db ++ trafficData.segments.enum.map (fun p => mkTrafficRecord env p.1 p.2)
  else db

/-- What the incident endpoint serves (and the `traffic-incidents`
cache holds): database rows on the DB path, raw TomTom incidents on
the API path. -/
inductive IncidentsPayload where
  | fromDb (incidents : List Incident)
  | fromApi (incidents : List ExtIncident)
deriving DecidableEq, Repr

/-- In-memory state of `TrafficDataService`: the NodeCache entries
(split by value type) and the two database tables. -/
structure ServiceState where
  trafficCache : List (String × TrafficData) := []
  incidentCache : Option IncidentsPayload := none
  trafficDb : List TrafficDataModel.TrafficRecord := []
  incidentDb : List Incident := []

/-- `NodeCache#get`. -/
def cacheGet (cache : List (String × TrafficData)) (key : String) :
    Option TrafficData :=
  (cache.find? (fun kv => kv.1 == key)).map (·.2)

/-- `NodeCache#set` (replaces any previous entry for the key). -/
def cacheSet (cache : List (String × TrafficData)) (key : String)
    (v : TrafficData) : List (String × TrafficData) :=
  (key, v) :: cache.filter (fun kv => !(kv.1 == key))

/-- `getLiveTrafficData(bounds)` from part_000 lines 19-51.  The TomTom
fetch is the `fetchResult` oracle; the returned Boolean records whether
the external API was consulted.  Logging calls have no state effect and
are omitted. -/
def getLiveTrafficData (env : Env) (bounds : Option String)
    (fetchResult : Except String TrafficData) (storeOk : Bool)
    (st : ServiceState) : TrafficData × ServiceState × Bool :=
  let cacheKey := "live-traffic-" ++ jsOrOptStr bounds "nairobi"
  match cacheGet st.trafficCache cacheKey with
  | some cached => (cached, st, false)
  | none =>
    match fetchResult with
    | .ok trafficData =>
      let st1 := { st with trafficCache := cacheSet st.trafficCache cacheKey trafficData }
      let st2 := { st1 with trafficDb := storeTrafficData env trafficData storeOk st1.trafficDb }
      (trafficData, st2, true)
    | .error _ => (getFallbackTrafficData env.now, st, true)

/-- `getTrafficIncidents()` from part_000 lines 98-151.  The TomTom
incident fetch is the `fetchResult` oracle; the database itself is
assumed reachable (its unavailability is outside the claims). -/
def getTrafficIncidents (env : Env)
    (fetchResult : Except String (List ExtIncident)) (storeOk : Bool)
    (st : ServiceState) : IncidentsPayload × ServiceState :=
  match st.incidentCache with
  | some cached => (cached, st)
  | none =>
    let dbIncidents := findActive st.incidentDb
      { order := some severityStartOrder, limit := some 50 }
    if dbIncidents.length > 0 then
      (.fromDb dbIncidents, { st with incidentCache := some (.fromDb dbIncidents) })
    else
      match fetchResult with
      | .ok incidents =>
        (.fromApi incidents,
          { st with
              incidentDb := storeIncidentData env incidents storeOk st.incidentDb
              incidentCache := some (.fromApi incidents) })
      | .error _ =>
        (.fromDb (findActive st.incidentDb
          { order := some startedAtOrder, limit := some 20 }), st)

lemma cacheGet_cacheSet (cache : List (String × TrafficData)) (key : String)
    (v : TrafficData) : cacheGet (cacheSet cache key v) key = some v := by
  simp [cacheGet, cacheSet, List.find?]

end TrafficService

/-- C2: `getLiveTrafficData` is cache-aside — a cache hit is returned
unchanged with no API call and no state change; on a miss the fetched
payload is written back to the cache under the computed key, stored in
the database, and returned. -/
theorem getLiveTrafficData_cache_aside (env : TrafficService.Env)
    (bounds : Option String)
    (fetchResult : Except String TrafficService.TrafficData)
    (storeOk : Bool) (st : TrafficService.ServiceState) :
    (∀ v, TrafficService.cacheGet st.trafficCache
        ("live-traffic-" ++ jsOrOptStr bounds "nairobi") = some v →
      TrafficService.getLiveTrafficData env bounds fetchResult storeOk st =
        (v, st, false)) ∧
    (TrafficService.cacheGet st.trafficCache
        ("live-traffic-" ++ jsOrOptStr bounds "nairobi") = none →
      ∀ td, fetchResult = Except.ok td →
        (TrafficService.getLiveTrafficData env bounds fetchResult storeOk st).1 = td ∧
        TrafficService.cacheGet
          (TrafficService.getLiveTrafficData env bounds fetchResult storeOk st).2.1.trafficCache
          ("live-traffic-" ++ jsOrOptStr bounds "nairobi") = some td ∧
        (storeOk = true →
          (TrafficService.getLiveTrafficData env bounds fetchResult storeOk st).2.1.trafficDb =
            st.trafficDb ++
              td.segments.enum.map (fun p => TrafficService.mkTrafficRecord env p.1 p.2)) ∧
        (TrafficService.getLiveTrafficData env bounds fetchResult storeOk st).2.2 = true) := by
  constructor
  · intro v hv
    unfold TrafficService.getLiveTrafficData
    dsimp only
    rw [hv]
  · intro hmiss td hok
    unfold TrafficService.getLiveTrafficData
    dsimp only
    rw [hmiss, hok]
    refine ⟨rfl, TrafficService.cacheGet_cacheSet _ _ _, ?_, rfl⟩
    intro hstore
    show TrafficService.storeTrafficData env td storeOk st.trafficDb =
      st.trafficDb ++ td.segments.enum.map (fun p => TrafficService.mkTrafficRecord env p.1 p.2)
    rw [hstore]
    rfl

/-- Witness for C2: a cache hit on the `nairobi` key is served from the
cache with no state change and no API call. -/
theorem getLiveTrafficData_cache_aside_witness :
    TrafficService.getLiveTrafficData ⟨fun _ => "id", fun _ => 0, 0⟩ none
        (Except.error "down") true
        { trafficCache := [("live-traffic-nairobi", { source := "cached" })] } =
      ({ source := "cached" },
        { trafficCache := [("live-traffic-nairobi", { source := "cached" })] }, false) :=
  (getLiveTrafficData_cache_aside ⟨fun _ => "id", fun _ => 0, 0⟩ none
    (Except.error "down") true
    { trafficCache := [("live-traffic-nairobi", { source := "cached" })] }).1
    { source := "cached" } rfl

/-- C3 counterexample: on a cache miss with a successful fetch but a
failing store step, `getLiveTrafficData` returns the fetched data
(source 'tomtom'), not the fallback object. -/
theorem getLiveTrafficData_store_failure_counterexample :
    (TrafficService.getLiveTrafficData ⟨fun _ => "id", fun _ => 0, 0⟩ none
        (Except.ok { source := "tomtom" }) false {}).1.source = "tomtom" ∧
    "tomtom" ≠ "fallback" :=
  ⟨rfl, by decide⟩

/-- C3 amended: on a cache miss, a failing external fetch yields the
fallback object (source 'fallback', empty segment list) and no error
escapes; a failing store step is swallowed inside `storeTrafficData`,
the database is left unchanged, and the fetched data is still
returned. -/
theorem getLiveTrafficData_error_fallback (env : TrafficService.Env)
    (bounds : Option String)
    (fetchResult : Except String TrafficService.TrafficData)
    (storeOk : Bool) (st : TrafficService.ServiceState)
    (hmiss : TrafficService.cacheGet st.trafficCache
      ("live-traffic-" ++ jsOrOptStr bounds "nairobi") = none) :
    (∀ e, fetchResult = Except.error e →
      TrafficService.getLiveTrafficData env bounds fetchResult storeOk st =
        (TrafficService.getFallbackTrafficData env.now, st, true) ∧
      (TrafficService.getFallbackTrafficData env.now).source = "fallback" ∧
      (TrafficService.getFallbackTrafficData env.now).segments = []) ∧
    (∀ td, fetchResult = Except.ok td → storeOk = false →
      (TrafficService.getLiveTrafficData env bounds fetchResult storeOk st).1 = td ∧
      (TrafficService.getLiveTrafficData env bounds fetchResult storeOk st).2.1.trafficDb =
        st.trafficDb) := by
  constructor
  · intro e he
    unfold TrafficService.getLiveTrafficData
    dsimp only
    rw [hmiss, he]
    exact ⟨rfl, rfl, rfl⟩
  · intro td hok hstore
    unfold TrafficService.getLiveTrafficData
    dsimp only
    rw [hmiss, hok]
    refine ⟨rfl, ?_⟩
    show TrafficService.storeTrafficData env td storeOk st.trafficDb = st.trafficDb
    rw [hstore]
    rfl

/-- Witness for the amended C3 theorem: a failing fetch on an empty
cache yields exactly the fallback payload. -/
theorem getLiveTrafficData_error_fallback_witness :
    TrafficService.getLiveTrafficData ⟨fun _ => "id", fun _ => 0, 7⟩ none
        (Except.error "down") true {} =
      (TrafficService.getFallbackTrafficData 7, {}, true) :=
  ((getLiveTrafficData_error_fallback ⟨fun _ => "id", fun _ => 0, 7⟩ none
    (Except.error "down") true {} rfl).1 "down" rfl).1

lemma severityStartOrder_total (a b : TrafficIncidentModel.Incident) :
    TrafficIncidentModel.severityStartOrder a b = true ∨
    TrafficIncidentModel.severityStartOrder b a = true := by
  simp only [TrafficIncidentModel.severityStartOrder, Bool.or_eq_true,
    Bool.and_eq_true, decide_eq_true_eq]
  omega

lemma severityStartOrder_trans (a b c : TrafficIncidentModel.Incident)
    (hab : TrafficIncidentModel.severityStartOrder a b = true)
    (hbc : TrafficIncidentModel.severityStartOrder b c = true) :
    TrafficIncidentModel.severityStartOrder a c = true := by
  simp only [TrafficIncidentModel.severityStartOrder, Bool.or_eq_true,
    Bool.and_eq_true, decide_eq_true_eq] at hab hbc ⊢
  omega

lemma mem_findActive_status {db : List TrafficIncidentModel.Incident}
    {opts : TrafficIncidentModel.QueryOptions}
    (hwhere : opts.whereClause = none) :
    ∀ i ∈ TrafficIncidentModel.findActive db opts,
      i.status = TrafficIncidentModel.Status.active := by
  intro i hi
  unfold TrafficIncidentModel.findActive TrafficIncidentModel.findAll at hi
  rw [hwhere] at hi
  have hmem : i ∈ db.filter (fun j => decide (j.status = TrafficIncidentModel.Status.active)) := by
    rcases hord : opts.order with _ | r <;> rcases hlim : opts.limit with _ | n <;>
      rw [hord, hlim] at hi <;> dsimp only at hi
    · exact (List.mem_insertionSort _).1 hi
    · exact (List.mem_insertionSort _).1 (List.mem_of_mem_take hi)
    · exact (List.mem_insertionSort _).1 hi
    · exact (List.mem_insertionSort _).1 (List.mem_of_mem_take hi)
  exact of_decide_eq_true (List.mem_filter.mp hmem).2

/-- C4: every incident returned by `findActive` (with no `where`
override, as at both call sites) has status 'active' — the enum is
exclusive, so 'resolved' and 'monitoring' rows are never included —
and on a cache miss with a non-empty database result
`getTrafficIncidents` serves exactly the `findActive` rows: ordered by
severity descending then started_at descending, at most 50 of them. -/
theorem getTrafficIncidents_active_sorted
    (db : List TrafficIncidentModel.Incident)
    (opts : TrafficIncidentModel.QueryOptions)
    (hwhere : opts.whereClause = none)
    (env : TrafficService.Env)
    (fetchResult : Except String (List TrafficService.ExtIncident))
    (storeOk : Bool) (st : TrafficService.ServiceState)
    (hcache : st.incidentCache = none)
    (hne : TrafficIncidentModel.findActive st.incidentDb
      { order := some TrafficIncidentModel.severityStartOrder, limit := some 50 } ≠ []) :
    (∀ i ∈ TrafficIncidentModel.findActive db opts,
      i.status = TrafficIncidentModel.Status.active) ∧
    (TrafficService.getTrafficIncidents env fetchResult storeOk st).1 =
      TrafficService.IncidentsPayload.fromDb
        (TrafficIncidentModel.findActive st.incidentDb
          { order := some TrafficIncidentModel.severityStartOrder, limit := some 50 }) ∧
    List.Sorted (fun a b => TrafficIncidentModel.severityStartOrder a b = true)
      (TrafficIncidentModel.findActive st.incidentDb
        { order := some TrafficIncidentModel.severityStartOrder, limit := some 50 }) ∧
    (TrafficIncidentModel.findActive st.incidentDb
      { order := some TrafficIncidentModel.severityStartOrder, limit := some 50 }).length ≤ 50 := by
  haveI htotal : IsTotal TrafficIncidentModel.Incident
      (fun a b => TrafficIncidentModel.severityStartOrder a b = true) :=
    ⟨severityStartOrder_total⟩
  haveI htrans : IsTrans TrafficIncidentModel.Incident
      (fun a b => TrafficIncidentModel.severityStartOrder a b = true) :=
    ⟨severityStartOrder_trans⟩
  refine ⟨mem_findActive_status hwhere, ?_, ?_, ?_⟩
  · unfold TrafficService.getTrafficIncidents
    rw [hcache]
    dsimp only
    rw [if_pos (List.length_pos.mpr hne)]
  · unfold TrafficIncidentModel.findActive TrafficIncidentModel.findAll
    dsimp only
    exact List.Pairwise.sublist (List.take_sublist _ _)
      (List.sorted_insertionSort _ _)
  · show ((TrafficIncidentModel.findAll st.incidentDb _).length ≤ 50)
    unfold TrafficIncidentModel.findAll
    dsimp only
    exact List.length_take_le _ _

/-- Witness for C4 on a one-row active database. -/
theorem getTrafficIncidents_active_sorted_witness :
    (TrafficService.getTrafficIncidents ⟨fun _ => "u", fun _ => 0, 0⟩
        (Except.error "down") true
        { incidentDb := [{ status := TrafficIncidentModel.Status.active,
                           severity := TrafficIncidentModel.Severity.high,
                           started_at := 5 }] }).1 =
      TrafficService.IncidentsPayload.fromDb
        [{ status := TrafficIncidentModel.Status.active,
           severity := TrafficIncidentModel.Severity.high,
           started_at := 5 }] :=
  (getTrafficIncidents_active_sorted [] {} rfl ⟨fun _ => "u", fun _ => 0, 0⟩
    (Except.error "down") true
    { incidentDb := [{ status := TrafficIncidentModel.Status.active,
                       severity := TrafficIncidentModel.Severity.high,
                       started_at := 5 }] } rfl
    (fun hc => List.noConfusion
      (hc : [({ status := TrafficIncidentModel.Status.active,
                severity := TrafficIncidentModel.Severity.high,
                started_at := 5 } : TrafficIncidentModel.Incident)] = []))).2.1

namespace Predictive

/-- One entry of `this.historicalData`
(`predictiveWarningSystem.js` lines 36-46). -/
structure DataPoint where
  timestamp : Int := 0
  trafficSegments : List TrafficService.Segment := []
  incidentCount : Nat := 0
  incidents : List TrafficIncidentModel.Incident := []
  averageSpeed : Int := 0
  congestionLevel : String := "low"
  hour : Nat := 0
  dayOfWeek : Nat := 0
  weather : String := "clear"
deriving DecidableEq, Repr

/-- `calculateAverageSpeed(segments)` from predictiveWarningSystem.js
lines 216-220; `none` is a null/undefined segment list. -/
def calculateAverageSpeed (segments : Option (List TrafficService.Segment)) : Int :=
  match segments with
  | none => 0
  | some segs =>
    if segs.length = 0 then 0
    else jsRound ((segs.map (·.currentSpeed)).sum / (segs.length : ℚ))

/-- `calculateOverallCongestion(segments)` from
predictiveWarningSystem.js lines 222-237. -/
def calculateOverallCongestion (segments : Option (List TrafficService.Segment)) :
    String :=
  match segments with
  | none => "low"
  | some segs =>
    if segs.length = 0 then "low"
    else
      let total := segs.length
      let severeCount := (segs.filter (fun s => s.trafficLevel == "severe")).length
      let highCount := (segs.filter (fun s => s.trafficLevel == "high")).length
      let mediumCount := (segs.filter (fun s => s.trafficLevel == "medium")).length
      if (severeCount : ℚ) / (total : ℚ) > 0.3 then "severe"
      else if (highCount : ℚ) / (total : ℚ) > 0.4 then "high"
      else if (mediumCount : ℚ) / (total : ℚ) > 0.5 then "medium"
      else "low"

/-- `storeHistoricalData(trafficData, incidents)` from
predictiveWarningSystem.js lines 34-55: push the new data point, then
keep only the last 7 days.  The clock and the local hour/day-of-week
are passed in. -/
def storeHistoricalData (now : Int) (hour dayOfWeek : Nat)
    (trafficData : TrafficService.TrafficData)
    (incidents : List TrafficIncidentModel.Incident)
    (historicalData : List DataPoint) : List DataPoint :=
  let dataPoint : DataPoint :=
    { timestamp := now
      trafficSegments := trafficData.segments
      incidentCount := incidents.length
      incidents := incidents
      averageSpeed := calculateAverageSpeed (some trafficData.segments)
      congestionLevel := calculateOverallCongestion (some trafficData.segments)
      hour := hour
      dayOfWeek := dayOfWeek
      weather := "clear" }
  (historicalData ++ [dataPoint]).filter
    (fun d => decide (now - 7 * 24 * 60 * 60 * 1000 < d.timestamp))

/-- `calculateRecentTrend()` from predictiveWarningSystem.js lines
80-96 (`slice(-6)`, halves, relative change). -/
def calculateRecentTrend (historicalData : List DataPoint) : String :=
  let recent := historicalData.drop (historicalData.length - 6)
  if recent.length < 3 then "stable"
  else
    let speeds := recent.map (·.averageSpeed)
    let firstHalf := speeds.take (speeds.length / 2)
    let secondHalf := speeds.drop (speeds.length / 2)
    let firstAvg := (firstHalf.sum : ℚ) / (firstHalf.length : ℚ)
    let secondAvg := (secondHalf.sum : ℚ) / (secondHalf.length : ℚ)
    let change := (secondAvg - firstAvg) / firstAvg
    if change < -0.2 then "deteriorating"
    else if change > 0.2 then "improving"
    else "stable"

/-- The object built by `getCurrentConditions()`
(predictiveWarningSystem.js lines 67-78). -/
structure CurrentConditions where
  timestamp : Int := 0
  averageSpeed : Int := 0
  congestionLevel : String := "low"
  incidentCount : Nat := 0
  hour : Nat := 0
  dayOfWeek : Nat := 0
  recentTrend : String := "stable"
deriving DecidableEq, Repr

/-- `getCurrentConditions()`; reads the last history entry (only
called with at least 10 entries). -/
def getCurrentConditions (hour dayOfWeek : Nat) (historicalData : List DataPoint) :
    CurrentConditions :=
  let latest := historicalData.getLast?.getD {}
  { timestamp := latest.timestamp
    averageSpeed := latest.averageSpeed
    congestionLevel := latest.congestionLevel
    incidentCount := latest.incidentCount
    hour := hour
    dayOfWeek := dayOfWeek
    recentTrend := calculateRecentTrend historicalData }

/-- `Math.abs(d.hour - targetHour) <= 1 && d.dayOfWeek ===
currentConditions.dayOfWeek`, the similarity filter shared by the
three models. -/
def similarTo (dayOfWeek targetHour : Nat) (d : DataPoint) : Bool :=
  decide (((d.hour : Int) - (targetHour : Int)).natAbs ≤ 1) &&
    decide (d.dayOfWeek = dayOfWeek)

/-- `CongestionModel.predict` (predictiveWarningSystem.js lines
289-321); returns (level, confidence).  `Object.keys` iterates the
insertion order low, medium, high, severe, so `find` takes the first
level reaching the maximum count. -/
def congestionPredict (cc : CurrentConditions) (targetHour : Nat)
    (historicalData : List DataPoint) : String × ℚ :=
  let similarConditions := historicalData.filter (similarTo cc.dayOfWeek targetHour)
  if similarConditions.length = 0 then ("medium", 0.3)
  else
    let congestionLevels := similarConditions.map (·.congestionLevel)
    let lowCount := (congestionLevels.filter (· == "low")).length
    let mediumCount := (congestionLevels.filter (· == "medium")).length
    let highCount := (congestionLevels.filter (· == "high")).length
    let severeCount := (congestionLevels.filter (· == "severe")).length
    let maxCount := max (max lowCount mediumCount) (max highCount severeCount)
    let predictedLevel :=
      if lowCount = maxCount then "low"
      else if mediumCount = maxCount then "medium"
      else if highCount = maxCount then "high"
      else "severe"
    (predictedLevel, min 0.9 ((similarConditions.length : ℚ) / 20))

/-- `SpeedModel.predict` (predictiveWarningSystem.js lines 324-352);
returns (speed, confidence). -/
def speedPredict (cc : CurrentConditions) (targetHour : Nat)
    (historicalData : List DataPoint) : Int × ℚ :=
  let similarConditions := historicalData.filter (similarTo cc.dayOfWeek targetHour)
  if similarConditions.length = 0 then (cc.averageSpeed, 0.3)
  else
    let speeds := similarConditions.map (·.averageSpeed)
    let avgSpeed := (speeds.sum : ℚ) / (speeds.length : ℚ)
    let adjustedSpeed :=
      if cc.recentTrend == "deteriorating" then avgSpeed * 0.9
      else if cc.recentTrend == "improving" then avgSpeed * 1.1
      else avgSpeed
    (jsRound adjustedSpeed, min 0.9 ((similarConditions.length : ℚ) / 20))

/-- `IncidentModel.predict` (predictiveWarningSystem.js lines
356-388); returns (probability, confidence). -/
def incidentPredict (cc : CurrentConditions) (targetHour : Nat)
    (historicalData : List DataPoint) : ℚ × ℚ :=
  let similarConditions := historicalData.filter (similarTo cc.dayOfWeek targetHour)
  if similarConditions.length = 0 then (0.1, 0.3)
  else
    let incidentCounts := similarConditions.map (·.incidentCount)
    let avgIncidents := ((incidentCounts.map (Nat.cast)).sum : ℚ) / (incidentCounts.length : ℚ)
    let probability := min 0.8 (avgIncidents * 0.1)
    let probability :=
      if (7 ≤ targetHour ∧ targetHour ≤ 9) ∨ (17 ≤ targetHour ∧ targetHour ≤ 19) then
        probability * 1.5
      else probability
    let probability := if cc.incidentCount > 2 then probability * 1.2 else probability
    (min 0.9 probability, min 0.9 ((similarConditions.length : ℚ) / 20))

/-- `mapCongestionToRisk(congestionLevel)` (lines 151-159). -/
def mapCongestionToRisk (congestionLevel : String) : ℚ :=
  if congestionLevel = "low" then 0.2
  else if congestionLevel = "medium" then 0.4
  else if congestionLevel = "high" then 0.7
  else if congestionLevel = "severe" then 0.9
  else 0.3

/-- `calculateOverallRisk(congestionPred, incidentPred)` (lines
139-149). -/
def calculateOverallRisk (congestionPred : String × ℚ) (incidentPred : ℚ × ℚ) :
    String :=
  let combinedRisk := mapCongestionToRisk congestionPred.1 * 0.7 + incidentPred.1 * 0.3
  if combinedRisk > 0.8 then "CRITICAL"
  else if combinedRisk > 0.6 then "HIGH"
  else if combinedRisk > 0.4 then "MEDIUM"
  else "LOW"

/-- `identifyRiskFactors(currentConditions, prediction)` (lines
161-190). -/
def identifyRiskFactors (cc : CurrentConditions) (prediction : String × ℚ) :
    List String :=
  (if 7 ≤ cc.hour ∧ cc.hour ≤ 9 then ["Morning rush hour"] else []) ++
  (if 17 ≤ cc.hour ∧ cc.hour ≤ 19 then ["Evening rush hour"] else []) ++
  (if cc.recentTrend == "deteriorating" then ["Deteriorating traffic conditions"] else []) ++
  (if cc.incidentCount > 2 then ["Multiple active incidents"] else []) ++
  (if prediction.2 < 0.6 then ["Low prediction confidence"] else []) ++
  (if cc.dayOfWeek = 1 ∨ cc.dayOfWeek = 5 then ["High traffic day"] else [])

/-- One entry of `this.predictions` (lines 124-133). -/
structure Prediction where
  timestamp : Int := 0
  minutesAhead : Nat := 0
  congestionLevel : String := "medium"
  confidence : ℚ := 0
  predictedSpeed : Int := 0
  incidentProbability : ℚ := 0
  riskLevel : String := "LOW"
  factors : List String := []
deriving DecidableEq, Repr

/-- `generatePredictions(currentConditions)` (lines 98-137): one
prediction per 15-minute step up to 60 minutes ahead.  `hourOfTime`
models `new Date(t).getHours()`. -/
def generatePredictions (now : Int) (hourOfTime : Int → Nat)
    (currentConditions : CurrentConditions) (historicalData : List DataPoint) :
    List Prediction :=
  ([15, 30, 45, 60] : List Nat).map fun (minutesAhead : Nat) =>
    let predictionTime := now + (minutesAhead : Int) * 60 * 1000
    let hour := hourOfTime predictionTime
    let congestionPrediction := congestionPredict currentConditions hour historicalData
    let speedPrediction := speedPredict currentConditions hour historicalData
    let incidentProbability := incidentPredict currentConditions hour historicalData
    { timestamp := predictionTime
      minutesAhead := minutesAhead
      congestionLevel := congestionPrediction.1
      confidence := congestionPrediction.2
      predictedSpeed := speedPrediction.1
      incidentProbability := incidentProbability.1
      riskLevel := calculateOverallRisk congestionPrediction incidentProbability
      factors := identifyRiskFactors currentConditions congestionPrediction }

/-- `processPredictiveWarnings(predictions)` (lines 192-214): the
warnings handed to `warningSystem.processWarnings`, one per
CRITICAL/HIGH-risk prediction.  The extra payload fields
(`predictionTime`, `factors`, `confidence`) are not read by the alert
logic and are not part of the `Warning` model. -/
def processPredictiveWarnings (now : Int) (predictions : List Prediction) :
    List WarningSystem.Warning :=
  let highRiskPredictions := predictions.filter
    (fun p => p.riskLevel == "CRITICAL" || p.riskLevel == "HIGH")
  highRiskPredictions.map fun prediction =>
    { level := if prediction.riskLevel == "CRITICAL" then "HIGH" else "MEDIUM"
      title := "Predictive Traffic Alert"
      message := prediction.riskLevel ++ " traffic conditions expected in " ++
        toString prediction.minutesAhead ++ " minutes"
      location := "City-wide forecast"
      timestamp := now
      type := "predictive"
      severity := 0 }

/-- Mutable state of `PredictiveWarningSystem`. -/
structure PredictiveState where
  historicalData : List DataPoint := []
  predictions : List Prediction := []
deriving DecidableEq, Repr

/-- `updatePredictions()` (lines 57-65): below 10 data points it
returns immediately; otherwise it regenerates `this.predictions` and
emits the predictive warnings. -/
def updatePredictions (now : Int) (hourOfTime : Int → Nat) (hour dayOfWeek : Nat)
    (st : PredictiveState) : PredictiveState × List WarningSystem.Warning :=
  if st.historicalData.length < 10 then (st, [])
  else
    let currentConditions := getCurrentConditions hour dayOfWeek st.historicalData
    let predictions := generatePredictions now hourOfTime currentConditions st.historicalData
    ({ st with predictions := predictions },
      processPredictiveWarnings now predictions)

end Predictive

/-- C6: after `storeHistoricalData`, every element of the history has a
timestamp strictly later than 7 days before the current time. -/
theorem storeHistoricalData_window (now : Int) (hour dayOfWeek : Nat)
    (trafficData : TrafficService.TrafficData)
    (incidents : List TrafficIncidentModel.Incident)
    (historicalData : List Predictive.DataPoint) :
    ∀ d ∈ Predictive.storeHistoricalData now hour dayOfWeek trafficData incidents
        historicalData,
      now - 7 * 24 * 60 * 60 * 1000 < d.timestamp := by
  intro d hd
  unfold Predictive.storeHistoricalData at hd
  dsimp only at hd
  exact of_decide_eq_true (List.mem_filter.mp hd).2

/-- Witness for C6: the freshly pushed data point itself. -/
theorem storeHistoricalData_window_witness :
    (0 : Int) - 7 * 24 * 60 * 60 * 1000 <
      ({ timestamp := 0 } : Predictive.DataPoint).timestamp :=
  storeHistoricalData_window 0 0 0 {} [] [] { timestamp := 0 }
    (List.mem_singleton.mpr rfl)

/-- C8: with fewer than 10 data points, `updatePredictions` leaves the
whole state (predictions included) unchanged and emits no predictive
warnings. -/
theorem updatePredictions_min_data (now : Int) (hourOfTime : Int → Nat)
    (hour dayOfWeek : Nat) (st : Predictive.PredictiveState)
    (h : st.historicalData.length < 10) :
    Predictive.updatePredictions now hourOfTime hour dayOfWeek st = (st, []) := by
  unfold Predictive.updatePredictions
  rw [if_pos h]

/-- Witness for C8 at the empty state. -/
theorem updatePredictions_min_data_witness :
    Predictive.updatePredictions 0 (fun _ => 0) 0 0 {} = ({}, []) :=
  updatePredictions_min_data 0 (fun _ => 0) 0 0 {} (by decide)

/-- C9: a null/undefined or empty segment list makes
`calculateAverageSpeed` return 0 and `calculateOverallCongestion`
return 'low' (so the `segments.length` divisors in the other branch
are never zero), and `calculateOverallCongestion` always lands in the
four-level enum. -/
theorem calculate_speed_congestion_guards :
    Predictive.calculateAverageSpeed none = 0 ∧
    Predictive.calculateAverageSpeed (some []) = 0 ∧
    Predictive.calculateOverallCongestion none = "low" ∧
    Predictive.calculateOverallCongestion (some []) = "low" ∧
    (∀ segments, Predictive.calculateOverallCongestion segments ∈
      (["low", "medium", "high", "severe"] : List String)) := by
  refine ⟨rfl, rfl, rfl, rfl, ?_⟩
  intro segments
  unfold Predictive.calculateOverallCongestion
  rcases segments with _ | segs
  · simp
  · dsimp only
    split_ifs <;> simp
